import Mathlib

/-!
Verification development for the phish-shield URL risk-scoring engine.

The definitions below are a shallow embedding of the Python sources
`backend/app/heuristic_engine.py` (class `HeuristicEngine`) and
`backend/app/api.py` (`calculate_risk_score` and the fusion part of
`scan_url`).  Modelling conventions:

* Python strings are Lean `String` / `List Char`; all inputs of interest
  here are Unicode text, and case folding, whitespace stripping and the
  regex digit class are modelled at ASCII precision (the repository only
  distinguishes ASCII from non-ASCII beyond that).
* Python `float` arithmetic is modelled by exact rational arithmetic
  (`ℚ`); the constants 0.4, 0.2, 0.7 and 0.8 become 4/10, 2/10, 7/10
  and 8/10.
* A raised Python exception is modelled by `Option.none` (`none` means
  the call raises to its caller); total code returns `some`.
* `urllib.parse.urlparse(...).hostname` is modelled from the CPython
  implementation of `urlsplit`/`_hostinfo`: tab/CR/LF removal, scheme
  stripping, netloc up to the first of `/?#`, the "Invalid IPv6 URL"
  `ValueError` for an unbalanced bracket (modelled as `none`), user-info
  stripping after the last `@`, bracket or port handling, lower-casing.
  (The NFKC netloc re-check of CPython is not modelled; it needs the
  Unicode normalization tables and is irrelevant to the inputs treated
  here.)
-/

namespace PhishShield

/-- ASCII lower-casing, the model of Python `str.lower` (the repository
only ever lowercases ASCII URLs before the ASCII/non-ASCII split). -/
def pyLower (s : String) : String :=
  String.mk (s.toList.map Char.toLower)

/-- Characters stripped by Python `str.strip()` (ASCII whitespace). -/
def isSpaceChar (c : Char) : Bool :=
  c == ' ' || c == '\t' || c == '\n' || c == '\r' || c == '\x0b' || c == '\x0c'

/-- Model of Python `str.strip()`. -/
def pyStrip (s : String) : String :=
  String.mk (((s.toList.dropWhile isSpaceChar).reverse.dropWhile isSpaceChar).reverse)

/-- Model of Python `str.split(sep)` with the one-character separator
used by the source (`hostname.split(".")`). -/
def splitDots : List Char → List (List Char)
  | [] => [[]]
  | c :: rest =>
    let r := splitDots rest
    if c = '.' then [] :: r
    else
      match r with
      | h :: t => (c :: h) :: t
      | [] => [[c]]

/-- Model of Python `".".join(parts)`. -/
def joinDots (parts : List (List Char)) : List Char :=
  List.intercalate ['.'] parts

/-- CPython `urlsplit` first removes ASCII tab, CR and LF anywhere in
the URL. -/
def removeTabNewlines (s : List Char) : List Char :=
  s.filter (fun c => c != '\t' && c != '\r' && c != '\n')

/-- Valid scheme characters in CPython `urlsplit`. -/
def schemeChars (c : Char) : Bool :=
  c.isAlphanum || c == '+' || c == '-' || c == '.'

/-- Scheme stripping of CPython `urlsplit`: if the text before the first
colon is a well-formed scheme (leading ASCII letter, then scheme
characters), drop it together with the colon. -/
def stripScheme (cs : List Char) : List Char :=
  match cs.findIdx? (· == ':') with
  | none => cs
  | some i =>
    if 0 < i then
      let pre := cs.take i
      if (pre.headD ' ').isAlpha && pre.all schemeChars then cs.drop (i + 1) else cs
    else cs

/-- The part of a netloc after the last `@` (CPython
`netloc.rpartition("@")[2]`). -/
def afterLastAt (cs : List Char) : List Char :=
  ((cs.reverse.takeWhile (fun c => c != '@')).reverse)

/-- Model of `urllib.parse.urlparse(s).hostname or ""`, from the CPython
implementation of `urlsplit` and the `hostname` property.  `none` models
the `ValueError("Invalid IPv6 URL")` raised for an unbalanced bracket in
the netloc; a URL without a netloc yields `some ""` (the callers in the
source replace a `None` hostname by the empty string). -/
def urlparseHostname (s : String) : Option String :=
  let cs := removeTabNewlines s.toList
  let rest := stripScheme cs
  match rest with
  | '/' :: '/' :: r =>
    let netloc := r.takeWhile (fun c => c != '/' && c != '?' && c != '#')
    if (netloc.contains '[' && !netloc.contains ']')
        || (netloc.contains ']' && !netloc.contains '[') then
      none
    else
      let hostinfo := afterLastAt netloc
      let hostname :=
        if hostinfo.contains '[' then
          ((hostinfo.dropWhile (fun c => c != '[')).drop 1).takeWhile (fun c => c != ']')
        else
          hostinfo.takeWhile (fun c => c != ':')
      some (String.mk (hostname.map Char.toLower))
  | _ => some ""

/-- The hostname extraction used throughout `heuristic_engine.py`:
`urlparse(url if url.startswith("http") else "http://" + url).hostname
or ""`, with `none` for a raised `ValueError`. -/
def pyHostname (url : String) : Option String :=
  urlparseHostname (if ("http".toList).isPrefixOf url.toList then url else "http://" ++ url)

/-! ## Static configuration of `HeuristicEngine.__init__`

The legitimate-domain collection is a Python `set` literal; its
iteration order is unspecified in Python, and the model fixes the
written (insertion) order.  All properties proved below are independent
of that order. -/

/-- `self.legitimate_domains` (a set literal in the source). -/
def legitimate_domains : List String :=
  ["google.com", "facebook.com", "amazon.com", "paypal.com",
   "microsoft.com", "apple.com", "netflix.com", "instagram.com",
   "twitter.com", "linkedin.com", "ebay.com", "walmart.com",
   "chase.com", "bankofamerica.com", "wellsfargo.com",
   "github.com", "dropbox.com", "yahoo.com", "outlook.com"]

/-- `self.suspicious_keywords`. -/
def suspicious_keywords : List String :=
  ["verify", "account", "update", "secure", "banking",
   "signin", "login", "confirm", "suspend", "unlock",
   "validate", "restore", "recover", "alert", "urgent",
   "limited", "unusual", "activity", "security-check"]

/-- `self.suspicious_tlds`. -/
def suspicious_tlds : List String :=
  [".tk", ".ml", ".ga", ".cf", ".gq", ".pw", ".cc",
   ".top", ".xyz", ".club", ".work", ".click"]

/-- `self.char_substitutions`, in dict insertion order.  Every pattern
and replacement is a single character, so Python `str.replace` on them
is a character map. -/
def char_substitutions : List (Char × Char) :=
  [('0', 'o'), ('1', 'i'), ('3', 'e'), ('5', 's'),
   ('8', 'b'), ('@', 'a'), ('$', 's')]

/-! ## Check 1: the IP-address regex

`_has_ip_address` asks whether `re.search` finds a match of
`(?:http[s]?://)?(\d{1,3}\.){3}\d{1,3}` in the URL.  The optional
non-capturing prefix group never affects whether a match exists, so a
match exists exactly when some position of the string starts
`(\d{1,3}\.){3}\d{1,3}`.  `\d` is modelled as an ASCII digit. -/

/-- Remainders of the list after consuming one, two or three leading
ASCII digits (the possibilities of a greedy-with-backtracking
`\d{1,3}`). -/
def dropDigits1to3 (cs : List Char) : List (List Char) :=
  match cs with
  | c1 :: t1 =>
    if c1.isDigit then
      t1 :: (match t1 with
        | c2 :: t2 =>
          if c2.isDigit then
            t2 :: (match t2 with
              | c3 :: t3 => if c3.isDigit then [t3] else []
              | [] => [])
          else []
        | [] => [])
    else []
  | [] => []

/-- Remainders after consuming `\d{1,3}` followed by a literal dot. -/
def dotRems (cs : List Char) : List (List Char) :=
  (dropDigits1to3 cs).filterMap (fun r =>
    match r with
    | '.' :: r2 => some r2
    | _ => none)

/-- Does `(\d{1,3}\.){3}\d{1,3}` match at the start of the list? -/
def matchIPAt (cs : List Char) : Bool :=
  (((dotRems cs).flatMap dotRems).flatMap dotRems).any (fun r =>
    match r with
    | c :: _ => c.isDigit
    | [] => false)

/-- `HeuristicEngine._has_ip_address`: `re.search` succeeds exactly
when the dotted-quad pattern matches at some position. -/
def _has_ip_address (url : String) : Bool :=
  (url.toList.tails).any matchIPAt

/-! ## `difflib.SequenceMatcher(None, a, b).ratio()`

Modelled from the CPython implementation with `isjunk=None`; `autojunk`
only acts when `len(b) >= 200`, which never happens for the protected
domains compared here.  With no junk the two post-extension loops of
`find_longest_match` never move the result (the dynamic program already
returns maximal runs inside the window), so only the dynamic program is
modelled. -/

/-- Lookup in the previous-row table `j2len` (a Python dict from `j` to
run length); absent keys give 0. -/
def j2lenGet (l : List (Nat × Nat)) (j : Nat) : Nat :=
  match l.find? (fun p => p.1 == j) with
  | some p => p.2
  | none => 0

/-- One row of the `find_longest_match` dynamic program: fold over the
positions `js` of `a[i]` inside `b` (ascending), building the new row
and updating the best block. -/
def flmRow (i : Nat) (blo bhi : Nat) (j2len : List (Nat × Nat))
    (best : Nat × Nat × Nat) (js : List Nat) :
    List (Nat × Nat) × (Nat × Nat × Nat) :=
  js.foldl (fun acc j =>
    if j < blo then acc
    else if bhi ≤ j then acc
    else
      let k := (if j = 0 then 0 else j2lenGet j2len (j - 1)) + 1
      let row := (j, k) :: acc.1
      if acc.2.2.2 < k then (row, (i + 1 - k, j + 1 - k, k)) else (row, acc.2))
    ([], best)

/-- `SequenceMatcher.find_longest_match(alo, ahi, blo, bhi)` on
character lists: returns `(besti, bestj, bestsize)`. -/
def findLongestMatch (a b : List Char) (alo ahi blo bhi : Nat) : Nat × Nat × Nat :=
  let rows := (List.range (ahi - alo)).map (fun d => alo + d)
  let out := rows.foldl (fun st i =>
    let c := a.getD i ' '
    let js := (List.range b.length).filter (fun j => b.getD j ' ' == c)
    flmRow i blo bhi st.1 st.2 js) ([], (alo, blo, 0))
  out.2

/-- Total size of the matching blocks of
`SequenceMatcher.get_matching_blocks`, restricted to a window; the
`fuel` argument bounds the recursion depth (any fuel of at least
`ahi - alo` steps is enough, and the callers pass more). -/
def matchedBlocks : Nat → List Char → List Char → Nat → Nat → Nat → Nat → Nat
  | 0, _, _, _, _, _, _ => 0
  | fuel + 1, a, b, alo, ahi, blo, bhi =>
    let t := findLongestMatch a b alo ahi blo bhi
    let i := t.1
    let j := t.2.1
    let k := t.2.2
    if k = 0 then 0
    else
      (if alo < i && blo < j then matchedBlocks fuel a b alo i blo j else 0)
      + k
      + (if i + k < ahi && j + k < bhi then matchedBlocks fuel a b (i + k) ahi (j + k) bhi else 0)

/-- `SequenceMatcher(None, a, b).ratio() = 2*matches/(len(a)+len(b))`,
as an exact rational.  (Python raises on two empty sequences; the
protected-domain side is never empty, and the total model returns 0
there.) -/
def sequenceMatcherRatio (a b : List Char) : ℚ :=
  let m := matchedBlocks (a.length + b.length + 1) a b 0 a.length 0 b.length
  if a.length + b.length = 0 then 0
  else (2 * m : ℚ) / ((a.length : ℚ) + (b.length : ℚ))

/-- The source test `ratio() > 0.8`, written in cross-multiplied
integer form (`0.8 < 2m/(la+lb)  iff  8(la+lb) < 20m` for a nonempty
pair) so that it is kernel-computable; `similarityExceeds_iff` below
proves it equal to the rational comparison. -/
def similarityExceeds (a b : List Char) : Bool :=
  let m := matchedBlocks (a.length + b.length + 1) a b 0 a.length 0 b.length
  decide (8 * (a.length + b.length) < 20 * m)

/-! ## The remaining sub-checks of `HeuristicEngine` -/

/-- Python `min` on two integers (kernel-reducible, unlike the lattice
`min` of `ℤ`). -/
def pyMin (a b : ℤ) : ℤ :=
  if a ≤ b then a else b

/-- Python `max` on two integers. -/
def pyMax (a b : ℤ) : ℤ :=
  if b ≤ a then a else b

/-- `HeuristicEngine._count_subdomains`: number of hostname labels
minus two, floored at zero; a parse failure (the `except` branch)
yields 0. -/
def _count_subdomains (url : String) : ℤ :=
  match pyHostname url with
  | none => 0
  | some h => pyMax 0 ((splitDots h.toList).length - 2 : ℤ)

/-- The `domain` local of `_check_typosquatting`: the last two labels
of the hostname when it has at least two, the whole hostname
otherwise. -/
def registrableDomain (hostname : String) : List Char :=
  let parts := splitDots hostname.toList
  if 2 ≤ parts.length then joinDots (parts.drop (parts.length - 2)) else hostname.toList

/-- The `normalized` local of `_check_typosquatting`: the sequence of
`domain.replace(fake, real)` steps; every pattern is one character, so
each step is a character map. -/
def confusableNormalize (domain : List Char) : List Char :=
  char_substitutions.foldl (fun d p => d.map (fun c => if c == p.1 then p.2 else c)) domain

/-- `HeuristicEngine._check_typosquatting`: extract the registrable
domain (last two labels), accept an exact protected-set match as
legitimate, then try confusable-character normalization, then an
edit-similarity ratio above 0.8 against each protected domain; a parse
failure (the `except` branch) yields `none`. -/
def _check_typosquatting (url : String) : Option String :=
  match pyHostname url with
  | none => none
  | some hostname =>
    let domain := registrableDomain hostname
    if legitimate_domains.contains (String.mk domain) then none
    else if legitimate_domains.contains (String.mk (confusableNormalize domain)) then
      some (String.mk (confusableNormalize domain))
    else
      legitimate_domains.find? (fun d => similarityExceeds domain d.toList)

/-- `HeuristicEngine._count_suspicious_keywords`: how many keywords of
the fixed list occur as substrings of the URL. -/
def _count_suspicious_keywords (url : String) : ℕ :=
  (suspicious_keywords.filter (fun k => decide (k.toList <:+: url.toList))).length

/-- `HeuristicEngine._has_suspicious_tld`: some listed TLD is a suffix
of the URL string, or occurs in it followed by a slash. -/
def _has_suspicious_tld (url : String) : Bool :=
  suspicious_tlds.any (fun t =>
    (t.toList).isSuffixOf url.toList || decide ((t ++ "/").toList <:+: url.toList))

/-- `HeuristicEngine._check_homograph`: a pure-ASCII URL encodes fine
and gives `False`; otherwise the hostname is parsed (the parse is NOT
protected by a handler there, so its `ValueError` propagates, modelled
by `none`) and the check reports whether the hostname has a non-ASCII
character. -/
def _check_homograph (url : String) : Option Bool :=
  if url.toList.all (fun c => decide (c.toNat ≤ 127)) then some false
  else
    match pyHostname url with
    | none => none
    | some h => some (h.toList.any (fun c => decide (127 < c.toNat)))

/-- Hyphen count of check 7. -/
def hyphen_count (url : String) : ℕ :=
  url.toList.count '-'

/-! ## `HeuristicEngine.check_url`

The source accumulates `confidence` and `reasons` through the nine
checks; the two accumulations are written here as two functions of the
(already lower-cased and stripped) URL plus the homograph outcome, with
the checks in source order. -/

/-- The confidence sum of `check_url` before the final cap, on the
lower-cased stripped URL; `hg` is the (non-raising) outcome of check 9. -/
def rawConfidence (url : String) (hg : Bool) : ℤ :=
  (if _has_ip_address url then 30 else 0)
  + (if 3 ≤ _count_subdomains url then 20 else 0)
  + (if (_check_typosquatting url).isSome then 40 else 0)
  + (if 2 ≤ _count_suspicious_keywords url then 25
     else if _count_suspicious_keywords url = 1 then 10 else 0)
  + (if _has_suspicious_tld url then 15 else 0)
  + (if url.toList.contains '@' then 35 else 0)
  + (if 4 ≤ hyphen_count url then 15 else 0)
  + (if 100 < url.length then 10 else 0)
  + (if hg then 30 else 0)

/-- The `reasons` list of `check_url`, in source order. -/
def reasonsList (url : String) (hg : Bool) : List String :=
  (if _has_ip_address url then ["Contains IP address instead of domain name"] else [])
  ++ (if 3 ≤ _count_subdomains url then
        ["Suspicious number of subdomains (" ++ toString (_count_subdomains url) ++ ")"]
      else [])
  ++ (match _check_typosquatting url with
      | some d => ["Possible typosquatting of " ++ d]
      | none => [])
  ++ (if 2 ≤ _count_suspicious_keywords url then
        ["Contains " ++ toString (_count_suspicious_keywords url) ++ " suspicious keywords"]
      else if _count_suspicious_keywords url = 1 then ["Contains suspicious keyword"] else [])
  ++ (if _has_suspicious_tld url then ["Uses suspicious top-level domain"] else [])
  ++ (if url.toList.contains '@' then ["Contains @ symbol (potential domain masking)"] else [])
  ++ (if 4 ≤ hyphen_count url then
        ["Excessive hyphens (" ++ toString (hyphen_count url) ++ ")"]
      else [])
  ++ (if 100 < url.length then ["Unusually long URL"] else [])
  ++ (if hg then ["Possible homograph attack (lookalike characters)"] else [])

/-- `"; ".join(reasons)`. -/
def joinReasons : List String → String
  | [] => ""
  | [r] => r
  | r :: rest => r ++ "; " ++ joinReasons rest

/-- The body of `check_url` on the already lower-cased, stripped URL.
`none` models the uncaught exception of check 9. -/
def check_url_processed (url : String) : Option (Bool × String × ℤ) :=
  match _check_homograph url with
  | none => none
  | some hg =>
    let confidence := pyMin (rawConfidence url hg) 100
    let rs := reasonsList url hg
    some (decide (40 ≤ confidence),
          (if rs.isEmpty then "No suspicious patterns detected" else joinReasons rs),
          confidence)

/-- `HeuristicEngine.check_url`: lower-case and strip, then run the nine
checks; returns `(is_suspicious, reason, confidence)`, or `none` when
check 9 raises. -/
def check_url (url : String) : Option (Bool × String × ℤ) :=
  check_url_processed (pyStrip (pyLower url))

/-! ## `api.py`: score fusion and verdict -/

/-- Model of Python `int()` on a rational: truncation toward zero. -/
def pyInt (q : ℚ) : ℤ :=
  if q < 0 then ⌈q⌉ else ⌊q⌋

/-- `calculate_risk_score` of `api.py`: the 0.4/0.4/0.2 weighted blend,
truncated by `int`, then clamped to [0, 100]. -/
def calculate_risk_score (heuristic_score : ℤ) (ml_probability : ℚ)
    (threat_intel_hit : Bool) : ℤ :=
  let weighted_heuristic : ℚ := (heuristic_score : ℚ) * (4 / 10)
  let weighted_ml : ℚ := (ml_probability * 100) * (4 / 10)
  let weighted_threat : ℚ := (if threat_intel_hit then (100 : ℚ) else 0) * (2 / 10)
  pyMin 100 (pyMax 0 (pyInt (weighted_heuristic + weighted_ml + weighted_threat)))

/-- The classifier layer of `scan_url` as the fusion sees it: `none`
when the model is not loaded or its prediction raised, otherwise the
prediction (the class index) and the phishing-class probability.  When
`none`, `scan_url` keeps the initial values `ml_prediction = 0`,
`ml_probability = 0.0`. -/
def mlPred : Option (ℤ × ℚ) → ℤ
  | none => 0
  | some pr => pr.1

/-- The probability seen by the fusion, 0 when unavailable. -/
def mlProb : Option (ℤ × ℚ) → ℚ
  | none => 0
  | some pr => pr.2

/-- The `detection_method` selection chain of `scan_url`
(api.py lines 199-209), verbatim on the state variables it reads. -/
def primary_detection_method (threat_intel_hit : Bool)
    (is_suspicious_heuristic : Bool) (heuristic_score : ℤ)
    (ml_prediction : ℤ) (ml_probability : ℚ) (unsafeFlag : Bool) : String :=
  if threat_intel_hit then "Threat Intelligence"
  else if is_suspicious_heuristic && decide (60 ≤ heuristic_score) then "Heuristic Analysis"
  else if decide (ml_prediction = 1) && decide ((7 : ℚ) / 10 < ml_probability) then
    "Machine Learning"
  else if unsafeFlag then "Combined Analysis"
  else "No threats detected"

/-- The verdict fields of the `scan_url` response that the fusion
determines. -/
structure Verdict where
  status : String
  risk_score : ℤ
  detection_method : String

/-- The fusion part of `scan_url` (api.py lines 192-209): from the
heuristic triple, the reputation hit and the classifier layer, compute
the risk score, the safe/unsafe status and the primary method label. -/
def scan_url_verdict (heuristic : Bool × String × ℤ) (threat_intel_hit : Bool)
    (ml : Option (ℤ × ℚ)) : Verdict :=
  let risk_score := calculate_risk_score heuristic.2.2 (mlProb ml) threat_intel_hit
  let unsafeFlag : Bool := decide (50 ≤ risk_score)
  { status := if unsafeFlag then "unsafe" else "safe"
    risk_score := risk_score
    detection_method := primary_detection_method threat_intel_hit heuristic.1 heuristic.2.2
      (mlPred ml) (mlProb ml) unsafeFlag }

/-! ## Spec-side comparison definitions

These two definitions follow the words of the specification (not the
source) and exist only to be compared against the source-derived
definitions above. -/

/-- The reading of check 5 in the claim and in spec table 4.2 row 5:
the HOSTNAME of the URL ends with one of the listed suspicious TLDs.
(The source checks the whole URL string instead.) -/
def hostnameEndsWithSuspiciousTld (url : String) : Bool :=
  match pyHostname url with
  | none => false
  | some h => suspicious_tlds.any (fun t => (t.toList).isSuffixOf h.toList)

/-- The primary-method priority list exactly as the claim states it,
with the spec enum values rendered as the strings the code returns
(ThreatIntelligence = "Threat Intelligence" and so on); clause 3
explicitly requires the classifier to be available. -/
def spec_primary_method (reputationHit : Bool) (heuristicSuspicious : Bool)
    (heuristicConfidence : ℤ) (classifier : Option (ℤ × ℚ)) (isUnsafe : Bool) : String :=
  if reputationHit then "Threat Intelligence"
  else if heuristicSuspicious && decide (60 ≤ heuristicConfidence) then "Heuristic Analysis"
  else if classifier.isSome && decide (mlPred classifier = 1)
      && decide ((7 : ℚ) / 10 < mlProb classifier) then "Machine Learning"
  else if isUnsafe then "Combined Analysis"
  else "No threats detected"

/-! ## Helper lemmas -/

/-- Clamping an integer already inside [0, 100] does nothing. -/
lemma pyClamp_eq (x : ℤ) (h0 : 0 ≤ x) (h1 : x ≤ 100) : pyMin 100 (pyMax 0 x) = x := by
  unfold pyMin pyMax
  split_ifs <;> omega

/-- `pyMin 100 (pyMax 0 x)` always lands in [0, 100]. -/
lemma pyClamp_bounds (x : ℤ) : 0 ≤ pyMin 100 (pyMax 0 x) ∧ pyMin 100 (pyMax 0 x) ≤ 100 := by
  unfold pyMin pyMax
  split_ifs <;> omega

/-- Python `int()` agrees with the floor on nonnegative rationals. -/
lemma pyInt_eq_floor (q : ℚ) (h : 0 ≤ q) : pyInt q = ⌊q⌋ := by
  unfold pyInt
  exact if_neg (not_lt.mpr h)

/-- The risk score is clamped, hence always within [0, 100], with no
assumption on the inputs. -/
lemma riskScore_bounds (h : ℤ) (p : ℚ) (t : Bool) :
    0 ≤ calculate_risk_score h p t ∧ calculate_risk_score h p t ≤ 100 := by
  unfold calculate_risk_score
  exact pyClamp_bounds _

/-- The confidence sum of the nine checks is a sum of nonnegative
contributions. -/
lemma rawConfidence_nonneg (url : String) (hg : Bool) : 0 ≤ rawConfidence url hg := by
  unfold rawConfidence
  repeat refine add_nonneg ?_ ?_
  all_goals split_ifs <;> norm_num

/-- On inputs inside the contract ranges, the weighted blend stays in
[0, 100] and the code computes exactly its floor. -/
lemma crs_eq_floor (h : ℤ) (p : ℚ) (t : Bool)
    (h0 : 0 ≤ h) (h1 : h ≤ 100) (p0 : 0 ≤ p) (p1 : p ≤ 1) :
    calculate_risk_score h p t =
      ⌊(h : ℚ) * (4 / 10) + (p * 100) * (4 / 10) + (if t then (100 : ℚ) else 0) * (2 / 10)⌋ := by
  have hq0 : (0 : ℚ) ≤ (h : ℚ) := by exact_mod_cast h0
  have hq1 : (h : ℚ) ≤ 100 := by exact_mod_cast h1
  set s : ℚ := (h : ℚ) * (4 / 10) + (p * 100) * (4 / 10) + (if t then (100 : ℚ) else 0) * (2 / 10)
    with hs
  have hs0 : 0 ≤ s := by
    rw [hs]
    cases t <;> norm_num <;> linarith
  have hs1 : s ≤ 100 := by
    rw [hs]
    cases t <;> norm_num <;> linarith
  unfold calculate_risk_score
  show pyMin 100 (pyMax 0 (pyInt s)) = ⌊s⌋
  rw [pyInt_eq_floor _ hs0]
  exact pyClamp_eq _ (Int.floor_nonneg.mpr hs0)
    (by simpa using Int.floor_le_floor (α := ℚ) hs1)

/-- Two strings with different first characters differ. -/
lemma ne_of_head {x y : String} (c d : Char)
    (hc : x.data.head? = some c) (hd : y.data.head? = some d) (hcd : c ≠ d) : x ≠ y := by
  intro h
  rw [h, hd] at hc
  have hdc : d = c := by simpa using hc
  exact hcd hdc.symm

/-- Membership in a conditional list. -/
lemma mem_ite_or {α} (a : α) (c : Prop) [Decidable c] (l1 l2 : List α) :
    (a ∈ if c then l1 else l2) ↔ (c ∧ a ∈ l1) ∨ (¬c ∧ a ∈ l2) := by
  split
  next h => simp [h]
  next h => simp [h]

/-- The integer form of the similarity test used in
`_check_typosquatting` is exactly the source comparison
`ratio() > 0.8` in exact rational arithmetic. -/
lemma similarityExceeds_iff (a b : List Char) (h : 0 < a.length + b.length) :
    similarityExceeds a b =
      decide ((8 : ℚ) / 10 < sequenceMatcherRatio a b) := by
  unfold similarityExceeds sequenceMatcherRatio
  dsimp only
  set m := matchedBlocks (a.length + b.length + 1) a b 0 a.length 0 b.length with hm
  rw [decide_eq_decide, if_neg (Nat.pos_iff_ne_zero.mp h)]
  have hT : (0 : ℚ) < (a.length : ℚ) + (b.length : ℚ) := by exact_mod_cast h
  rw [div_lt_div_iff₀ (by norm_num) hT]
  constructor
  · intro hn
    have hq : ((8 * (a.length + b.length) : ℕ) : ℚ) < ((20 * m : ℕ) : ℚ) :=
      Nat.cast_lt.mpr hn
    push_cast at hq
    linarith
  · intro hq
    have hq2 : ((8 * (a.length + b.length) : ℕ) : ℚ) < ((20 * m : ℕ) : ℚ) := by
      push_cast
      linarith
    exact Nat.cast_lt.mp hq2

/-- A found typosquatting target always belongs to the protected set. -/
lemma typosquat_mem_legit {url : String} {d : String}
    (h : _check_typosquatting url = some d) : d ∈ legitimate_domains := by
  unfold _check_typosquatting at h
  cases hh : pyHostname url with
  | none =>
    rw [hh] at h
    exact Option.noConfusion h
  | some hostname =>
    rw [hh] at h
    dsimp only at h
    split_ifs at h with h1 h2
    all_goals first
      | exact Option.noConfusion h
      | (have hd := Option.some.inj h
         rw [← hd]
         exact List.elem_iff.mp h2)
      | exact List.mem_of_find?_eq_some h

/-- The suspicious-TLD reason string appears in the reasons exactly when
check 5 fires: no other check can produce that exact string. -/
lemma mem_reasons_tld (url : String) (hg : Bool) :
    ("Uses suspicious top-level domain" ∈ reasonsList url hg) ↔
      _has_suspicious_tld url = true := by
  have hsub : ∀ n : ℤ, "Uses suspicious top-level domain" ≠
      "Suspicious number of subdomains (" ++ toString n ++ ")" := by
    intro n
    have h1 : ("Suspicious number of subdomains (" ++ toString n ++ ")").data.head? =
        some 'S' := by
      rw [String.data_append, String.data_append]
      rfl
    exact Ne.symm (ne_of_head 'S' 'U' h1 rfl (by decide))
  have htypo : ∀ d : String, "Uses suspicious top-level domain" ≠
      "Possible typosquatting of " ++ d := by
    intro d
    have h1 : ("Possible typosquatting of " ++ d).data.head? = some 'P' := by
      rw [String.data_append]
      rfl
    exact Ne.symm (ne_of_head 'P' 'U' h1 rfl (by decide))
  have hkw : ∀ n : ℕ, "Uses suspicious top-level domain" ≠
      "Contains " ++ toString n ++ " suspicious keywords" := by
    intro n
    have h1 : ("Contains " ++ toString n ++ " suspicious keywords").data.head? =
        some 'C' := by
      rw [String.data_append, String.data_append]
      rfl
    exact Ne.symm (ne_of_head 'C' 'U' h1 rfl (by decide))
  have hhy : ∀ n : ℕ, "Uses suspicious top-level domain" ≠
      "Excessive hyphens (" ++ toString n ++ ")" := by
    intro n
    have h1 : ("Excessive hyphens (" ++ toString n ++ ")").data.head? = some 'E' := by
      rw [String.data_append, String.data_append]
      rfl
    exact Ne.symm (ne_of_head 'E' 'U' h1 rfl (by decide))
  have hip : "Uses suspicious top-level domain" ≠
      "Contains IP address instead of domain name" := by decide
  have hkw1 : "Uses suspicious top-level domain" ≠ "Contains suspicious keyword" := by decide
  have hat : "Uses suspicious top-level domain" ≠
      "Contains @ symbol (potential domain masking)" := by decide
  have hlong : "Uses suspicious top-level domain" ≠ "Unusually long URL" := by decide
  have hhomo : "Uses suspicious top-level domain" ≠
      "Possible homograph attack (lookalike characters)" := by decide
  unfold reasonsList
  cases htp : _check_typosquatting url with
  | none =>
    simp [List.mem_append, mem_ite_or, hsub, hip, hkw, hkw1, hat, hlong, hhomo, hhy]
  | some dt =>
    have hty := htypo dt
    simp [List.mem_append, mem_ite_or, hsub, hip, hkw, hkw1, hat, hlong, hhomo, hhy, hty]

/-- Capping at 100 keeps a nonnegative value inside [0, 100]. -/
lemma pyMin100_bounds (x : ℤ) (hx : 0 ≤ x) : 0 ≤ pyMin x 100 ∧ pyMin x 100 ≤ 100 := by
  unfold pyMin
  split_ifs <;> omega

/-! ## The claims -/

/-- C1: for a heuristic confidence in [0,100], a classifier probability
in [0,1] and a reputation flag, the fused risk score equals the floor
of `clamp(0.4*h + 0.4*(p*100) + 0.2*(t ? 100 : 0), 0, 100)`; when the
classifier is unavailable its term is replaced by 0 without
renormalizing, so with no reputation hit the score is exactly
`floor(0.4*h)`. -/
theorem C1_weighted_blend (h : ℤ) (p : ℚ) (t : Bool)
    (h0 : 0 ≤ h) (h1 : h ≤ 100) (p0 : 0 ≤ p) (p1 : p ≤ 1) :
    calculate_risk_score h p t =
      ⌊min (100 : ℚ) (max 0 ((4 / 10) * (h : ℚ) + (4 / 10) * (p * 100)
        + (2 / 10) * (if t then (100 : ℚ) else 0)))⌋
    ∧ calculate_risk_score h 0 false = ⌊(4 / 10 : ℚ) * (h : ℚ)⌋ := by
  have hq0 : (0 : ℚ) ≤ (h : ℚ) := by exact_mod_cast h0
  have hq1 : (h : ℚ) ≤ 100 := by exact_mod_cast h1
  constructor
  · rw [crs_eq_floor h p t h0 h1 p0 p1]
    have e : (4 / 10) * (h : ℚ) + (4 / 10) * (p * 100)
        + (2 / 10) * (if t then (100 : ℚ) else 0)
        = (h : ℚ) * (4 / 10) + (p * 100) * (4 / 10)
          + (if t then (100 : ℚ) else 0) * (2 / 10) := by ring
    rw [e]
    have hs0 : 0 ≤ (h : ℚ) * (4 / 10) + (p * 100) * (4 / 10)
        + (if t then (100 : ℚ) else 0) * (2 / 10) := by
      cases t <;> norm_num <;> linarith
    have hs1 : (h : ℚ) * (4 / 10) + (p * 100) * (4 / 10)
        + (if t then (100 : ℚ) else 0) * (2 / 10) ≤ 100 := by
      cases t <;> norm_num <;> linarith
    rw [max_eq_right hs0, min_eq_right hs1]
  · rw [crs_eq_floor h 0 false h0 h1 le_rfl (by norm_num)]
    congr 1
    norm_num
    ring

/-- Witness for C1 at h = 55, p = 1/2, t = true (and the unavailable
case h = 55, p = 0, t = false). -/
theorem C1_weighted_blend_witness :
    calculate_risk_score 55 (1 / 2) true =
      ⌊min (100 : ℚ) (max 0 ((4 / 10) * ((55 : ℤ) : ℚ) + (4 / 10) * ((1 / 2) * 100)
        + (2 / 10) * (if true then (100 : ℚ) else 0)))⌋
    ∧ calculate_risk_score 55 0 false = ⌊(4 / 10 : ℚ) * ((55 : ℤ) : ℚ)⌋ :=
  C1_weighted_blend 55 (1 / 2) true (by norm_num) (by norm_num) (by norm_num) (by norm_num)

/-- C2: every confidence returned by `check_url` lies in [0,100], and
every fused risk score lies in [0,100]. -/
theorem C2_bounded_signals :
    (∀ url b s c, check_url url = some (b, s, c) → 0 ≤ c ∧ c ≤ 100) ∧
    (∀ (h : ℤ) (p : ℚ) (t : Bool),
      0 ≤ calculate_risk_score h p t ∧ calculate_risk_score h p t ≤ 100) := by
  constructor
  · intro url b s c hsome
    unfold check_url check_url_processed at hsome
    cases hh : _check_homograph (pyStrip (pyLower url)) with
    | none =>
      rw [hh] at hsome
      exact Option.noConfusion hsome
    | some hg =>
      rw [hh] at hsome
      dsimp only at hsome
      have hc := Option.some.inj hsome
      have hcc : pyMin (rawConfidence (pyStrip (pyLower url)) hg) 100 = c :=
        congrArg (fun x => x.2.2) hc
      rw [← hcc]
      exact pyMin100_bounds _ (rawConfidence_nonneg _ _)
  · intro h p t
    exact riskScore_bounds h p t

set_option maxRecDepth 40000 in
/-- Witness for C2 at the empty URL, whose heuristic confidence is 0. -/
theorem C2_bounded_signals_witness : 0 ≤ (0 : ℤ) ∧ (0 : ℤ) ≤ 100 :=
  C2_bounded_signals.1 "" false "No suspicious patterns detected" 0 (by decide)

/-- C3: the fused verdict is "unsafe" exactly when the risk score is at
least 50, whatever the three layer signals are (in particular the
threshold is the fixed 50, not the heuristic threshold 40). -/
theorem C3_unsafe_iff_fifty (heuristic : Bool × String × ℤ) (t : Bool)
    (ml : Option (ℤ × ℚ)) :
    (scan_url_verdict heuristic t ml).status = "unsafe" ↔
      50 ≤ (scan_url_verdict heuristic t ml).risk_score := by
  unfold scan_url_verdict
  dsimp only
  have hne : ("safe" : String) ≠ "unsafe" := by decide
  cases hd : decide (50 ≤ calculate_risk_score heuristic.2.2 (mlProb ml) t) with
  | true =>
    simp [hd]
    exact of_decide_eq_true hd
  | false =>
    simp [hd, hne]
    exact lt_of_not_ge (of_decide_eq_false hd)

/-- C4: the primary detection-method label follows exactly the claimed
priority order; clause 3 of the claim also asks the classifier to be
available, which the code guarantees implicitly because an unavailable
classifier leaves the prediction at 0. -/
theorem C4_method_priority (heuristic : Bool × String × ℤ) (t : Bool)
    (ml : Option (ℤ × ℚ)) :
    (scan_url_verdict heuristic t ml).detection_method =
      spec_primary_method t heuristic.1 heuristic.2.2 ml
        (decide (50 ≤ (scan_url_verdict heuristic t ml).risk_score)) := by
  unfold scan_url_verdict
  dsimp only
  cases ml with
  | none => simp [primary_detection_method, spec_primary_method, mlPred, mlProb]
  | some pr => simp [primary_detection_method, spec_primary_method, mlPred, mlProb]

/-- C9: with NO precondition on any input, the risk score is an integer
in [0,100], because the clamp is applied after the weighted sum. -/
theorem C9_always_clamped (h : ℤ) (p : ℚ) (t : Bool) :
    0 ≤ calculate_risk_score h p t ∧ calculate_risk_score h p t ≤ 100 :=
  riskScore_bounds h p t

set_option maxRecDepth 40000 in
/-- C5 counterexample: for `evil.tk?x=1` the hostname is `evil.tk`,
which ends with the listed TLD `.tk`, yet check 5 does not fire (the
URL string neither ends with `.tk` nor contains `.tk/`), so the claimed
iff fails on this input. -/
theorem C5_tld_counterexample :
    _has_suspicious_tld "evil.tk?x=1" = false ∧
    hostnameEndsWithSuspiciousTld "evil.tk?x=1" = true ∧
    "Uses suspicious top-level domain" ∉ reasonsList "evil.tk?x=1" false := by decide

/-- C5 amended: check 5 fires (equivalently, its reason string is
reported) exactly when the URL STRING ends with a listed suspicious TLD
or contains a listed TLD immediately followed by a slash; the hostname
plays no role. -/
theorem C5_tld_is_url_string_check (url : String) (hg : Bool) :
    ("Uses suspicious top-level domain" ∈ reasonsList url hg ↔
      _has_suspicious_tld url = true) ∧
    (_has_suspicious_tld url = true ↔
      ∃ t ∈ suspicious_tlds, (t.toList).isSuffixOf url.toList = true ∨
        (t ++ "/").toList <:+: url.toList) := by
  refine ⟨mem_reasons_tld url hg, ?_⟩
  simp [_has_suspicious_tld, List.any_eq_true]

set_option maxRecDepth 40000 in
/-- C6 counterexample: on `paypal-verify.tk` the matcher reports NO
impersonation (the similarity to `paypal.com` is 7/13, far below 0.8,
and no confusable character occurs), and `check_url` returns
confidence 25 with suspicious = false, contradicting every part of the
claim. -/
theorem C6_paypal_counterexample :
    _check_typosquatting "paypal-verify.tk" = none ∧
    check_url "paypal-verify.tk" =
      some (false, "Contains suspicious keyword; Uses suspicious top-level domain", 25) := by
  decide

set_option maxRecDepth 40000 in
/-- C6 amended: on `paypal-verify.tk` the Domain Similarity Matcher
finds no impersonation target; only the keyword check (`verify`, +10)
and the suspicious TLD check (`.tk`, +15) fire, so the confidence is 25
and the URL is NOT flagged as suspicious (25 < 40). -/
theorem C6_paypal_amended :
    check_url "paypal-verify.tk" =
      some (false, "Contains suspicious keyword; Uses suspicious top-level domain", 25) ∧
    _check_typosquatting "paypal-verify.tk" = none ∧
    _count_suspicious_keywords "paypal-verify.tk" = 1 ∧
    _has_suspicious_tld "paypal-verify.tk" = true ∧
    _has_ip_address "paypal-verify.tk" = false := by
  decide

set_option maxRecDepth 40000 in
/-- C7: `http://192.168.1.1/login` fires the IP-literal check (+30) and
exactly one suspicious keyword (`login`, +10), giving confidence
exactly 40 and suspicious = true, with a reason that includes the
IP-address message. -/
theorem C7_ip_literal_case :
    check_url "http://192.168.1.1/login" =
      some (true, "Contains IP address instead of domain name; Contains suspicious keyword",
        40) ∧
    _has_ip_address "http://192.168.1.1/login" = true ∧
    _count_suspicious_keywords "http://192.168.1.1/login" = 1 ∧
    ("Contains IP address instead of domain name".toList <:+:
      "Contains IP address instead of domain name; Contains suspicious keyword".toList) := by
  decide

set_option maxRecDepth 40000 in
/-- C8 counterexample: on `é[` (a non-ASCII URL whose synthesized parse
has an unbalanced bracket) the homograph check parses the hostname
OUTSIDE any handler, the parse raises, and the scan does not complete
(modelled by `check_url = none`) — even though the two sub-checks named
by the claim do degrade to their neutral values. -/
theorem C8_raise_counterexample :
    check_url "é[" = none ∧
    _count_subdomains "é[" = 0 ∧
    _check_typosquatting "é[" = none := by decide

/-- C8 amended: the Domain Similarity Matcher and the subdomain-count
check never raise — a hostname-parse failure degrades them to no-match
and 0 — and the overall scan completes for every URL whose processed
form is pure ASCII; only a non-ASCII URL whose parse fails can escape
through the homograph check. -/
theorem C8_parse_failures_degrade (url : String) :
    (pyHostname url = none →
      _count_subdomains url = 0 ∧ _check_typosquatting url = none) ∧
    ((∀ c ∈ (pyStrip (pyLower url)).toList, c.toNat ≤ 127) →
      (check_url url).isSome = true) := by
  constructor
  · intro hp
    constructor
    · unfold _count_subdomains
      rw [hp]
    · unfold _check_typosquatting
      rw [hp]
  · intro hascii
    have hall : ((pyStrip (pyLower url)).toList.all (fun c => decide (c.toNat ≤ 127))) = true := by
      rw [List.all_eq_true]
      intro c hc
      exact decide_eq_true (hascii c hc)
    unfold check_url check_url_processed _check_homograph
    simp only [hall]
    rfl

set_option maxRecDepth 40000 in
/-- Witness for C8 amended: the parse of `[x` fails and both sub-checks
degrade; the pure-ASCII URL `abc` completes. -/
theorem C8_parse_failures_degrade_witness :
    (_count_subdomains "[x" = 0 ∧ _check_typosquatting "[x" = none) ∧
    (check_url "abc").isSome = true :=
  ⟨(C8_parse_failures_degrade "[x").1 (by decide),
   (C8_parse_failures_degrade "abc").2 (by decide)⟩

set_option maxRecDepth 40000 in
/-- C10: on the empty string `check_url` completes and returns
suspicious = false, confidence 0 and the fixed no-findings reason. -/
theorem C10_empty_url :
    check_url "" = some (false, "No suspicious patterns detected", 0) := by decide

end PhishShield
